import Mathlib

/-!
Shallow embedding of the two example applications of this repository
(`examples/bollywood/main.py` and `examples/debate/main.py`) together with a
model of the orchestration engine's action-invocation contract.

Modelling conventions:
- Each pydantic context class becomes a Lean structure with the same fields and
  the same default values.  Python `int` becomes `Int` (or `Nat` for fields that
  are only ever incremented from 0), Python `float` scores become `ℚ` (the
  effect functions only assign, add and compare scores; no rounding behaviour
  is at stake in any claim), `Optional[str]` becomes `Option String`.
- Each `@function_tool` effect function `f(context, args) -> str` becomes a pure
  Lean function `f : Ctx → args → Ctx × Result`: the in-place mutation of the
  pydantic context is turned into explicit state passing.
- History-log entries (Python dicts / f-strings) and returned result strings are
  modelled as tagged inductive values carrying exactly the data the Python code
  interpolates; this keeps every effect executable and decidable without
  re-implementing Python string formatting.
- Each `async def on_..._handoff(context) -> None` hook becomes `Ctx → Ctx`.
- Agents keep their constructed `name`, the list of names of the tools they were
  granted, and their outbound handoff edges (target agent name plus optional
  activation hook).  Prompt/instruction text is presentation content and carries
  no control flow, so it is not part of the model.
-/

/-- An outbound handoff edge of an agent: the target agent's name and the
optional activation hook attached to the edge (the `on_handoff` callback of the
`handoff(...)` wrapper; a bare `agent.handoffs.append(other)` has no hook). -/
structure Handoff (Ctx : Type) where
  target : String
  on_handoff : Option (Ctx → Ctx)

/-- An agent as constructed by `Agent[...](name=..., tools=..., handoffs=...)`:
its unique name, the names of the tools in its capability set, and its outbound
handoff edges. -/
structure Agent (Ctx : Type) where
  name : String
  tools : List String
  handoffs : List (Handoff Ctx)

/-- A transcript entry, the tagged variant of the spec's data model: messages,
action invocations, action results and handoff events.  `P` is the type of
action parameter records, `R` the type of action results. -/
inductive TranscriptEntry (P R : Type) where
  | Message (agent : String) (text : String)
  | ActionInvoked (agent : String) (actionName : String) (params : P)
  | ActionResult (agent : String) (actionName : String) (result : R)
  | HandoffOccurred (source : String) (target : String)

/-- Errors of the engine's invocation contract. -/
inductive InvokeError where
  | UnknownActionError
  | InvalidParamsError
  deriving DecidableEq

/-- Modelled from the spec: the action-invocation contract `invoke(agent,
actionName, params, context)` of the Action Registry (spec section 4.2).  The
dispatching engine itself lives in the `agents` SDK package of this repository
and is not under `src/`; only the examples are.  Per the spec, invocation fails
with `UnknownActionError` when the action's name is not in the agent's
capability set, touching neither context nor transcript; otherwise it runs the
effect function and appends one `ActionInvoked` and one matching `ActionResult`
entry, in that order.  Parameter records are typed (`P` is a sum of per-action
parameter tuples), so `InvalidParamsError` cannot arise in the model. -/
def invoke {Ctx P R : Type} (apply_effect : P → Ctx → Ctx × R)
    (action_name : P → String) (agent : Agent Ctx) (params : P) (context : Ctx)
    (transcript : List (TranscriptEntry P R)) :
    Except InvokeError (Ctx × List (TranscriptEntry P R) × R) :=
  if action_name params ∈ agent.tools then
    let r := apply_effect params context
    .ok (r.1,
      transcript ++ [.ActionInvoked agent.name (action_name params) params,
                     .ActionResult agent.name (action_name params) r.2],
      r.2)
  else
    .error .UnknownActionError

/-! ### examples/bollywood/main.py -/

/-- Entries of `argument_history` (Python dicts tagged by their `"type"` key);
`scene_setup` carries the two names and roles that the Python code interpolates
into its `char1`/`char2` strings. -/
inductive BEvent where
  | scene_setup (topic char1_name char1_role char2_name char2_role : String)
  | dialogue (speaker hindi english : String) (dramatic_level : Int) (round : Nat)
  | drama_escalation (new_intensity : Int)
  | bollywood_element (element description : String)
  | speaker_change (speaker : String)
  | translator_activated (content : String)
  deriving DecidableEq

/-- Result values returned by the bollywood tools, one constructor per `return`
statement, carrying the data interpolated into the returned f-string. -/
inductive BRes where
  | scene_set (char1_name char1_role char2_name char2_role topic : String)
  | dialogue_spoken (speaker hindi english : String) (dramatic_level : Int)
  | explanation (word_or_phrase detailed_explanation : String)
  | drama_escalated (new_intensity : Int)
  | argument_status (topic char1_name char1_role char2_name char2_role
      speaker : String) (round : Nat) (intensity : Int) (questions_asked : Nat)
  | element_added (element_type description : String)
  deriving DecidableEq

/-- `BollywoodArgumentContext`, with the pydantic defaults. -/
structure BollywoodArgumentContext where
  argument_topic : String := ""
  character_1_name : String := ""
  character_2_name : String := ""
  character_1_role : String := ""
  character_2_role : String := ""
  current_speaker : String := ""
  argument_history : List BEvent := []
  current_round : Nat := 0
  dramatic_intensity : Int := 5
  user_questions : List String := []
  translations_given : List String := []
  deriving DecidableEq

/-- Tool `set_argument_scene`. -/
def set_argument_scene (c : BollywoodArgumentContext)
    (topic char1_name char1_role char2_name char2_role : String) :
    BollywoodArgumentContext × BRes :=
  ({ c with
      argument_topic := topic
      character_1_name := char1_name
      character_2_name := char2_name
      character_1_role := char1_role
      character_2_role := char2_role
      argument_history := c.argument_history ++
        [.scene_setup topic char1_name char1_role char2_name char2_role] },
   .scene_set char1_name char1_role char2_name char2_role topic)

/-- Tool `speak_hindi_dialogue`. -/
def speak_hindi_dialogue (c : BollywoodArgumentContext)
    (speaker hindi_dialogue english_translation : String)
    (dramatic_level : Int) : BollywoodArgumentContext × BRes :=
  ({ c with
      current_speaker := speaker
      current_round := c.current_round + 1
      dramatic_intensity := dramatic_level
      argument_history := c.argument_history ++
        [.dialogue speaker hindi_dialogue english_translation dramatic_level
          (c.current_round + 1)] },
   .dialogue_spoken speaker hindi_dialogue english_translation dramatic_level)

/-- Tool `explain_meaning`. -/
def explain_meaning (c : BollywoodArgumentContext)
    (word_or_phrase detailed_explanation : String) :
    BollywoodArgumentContext × BRes :=
  ({ c with
      user_questions := c.user_questions ++ [word_or_phrase]
      translations_given := c.translations_given ++ [detailed_explanation] },
   .explanation word_or_phrase detailed_explanation)

/-- Tool `escalate_drama`. -/
def escalate_drama (c : BollywoodArgumentContext) (new_intensity : Int) :
    BollywoodArgumentContext × BRes :=
  ({ c with
      dramatic_intensity := new_intensity
      argument_history := c.argument_history ++ [.drama_escalation new_intensity] },
   .drama_escalated new_intensity)

/-- Tool `get_argument_status` (read-only status report). -/
def get_argument_status (c : BollywoodArgumentContext) :
    BollywoodArgumentContext × BRes :=
  (c, .argument_status c.argument_topic c.character_1_name c.character_1_role
    c.character_2_name c.character_2_role c.current_speaker c.current_round
    c.dramatic_intensity c.user_questions.length)

/-- Tool `add_bollywood_element`. -/
def add_bollywood_element (c : BollywoodArgumentContext)
    (element_type description : String) : BollywoodArgumentContext × BRes :=
  ({ c with
      argument_history := c.argument_history ++
        [.bollywood_element element_type description] },
   .element_added element_type description)

/-- Hook `on_character_1_handoff`. -/
def on_character_1_handoff (c : BollywoodArgumentContext) :
    BollywoodArgumentContext :=
  { c with
      current_speaker := c.character_1_name
      argument_history := c.argument_history ++
        [.speaker_change c.character_1_name] }

/-- Hook `on_character_2_handoff`. -/
def on_character_2_handoff (c : BollywoodArgumentContext) :
    BollywoodArgumentContext :=
  { c with
      current_speaker := c.character_2_name
      argument_history := c.argument_history ++
        [.speaker_change c.character_2_name] }

/-- Hook `on_translator_handoff`. -/
def on_translator_handoff (c : BollywoodArgumentContext) :
    BollywoodArgumentContext :=
  { c with
      argument_history := c.argument_history ++
        [.translator_activated "Translator ready to explain"] }

/-- Parameter records for the bollywood tools, one constructor per tool. -/
inductive BParams where
  | set_argument_scene (topic char1_name char1_role char2_name char2_role : String)
  | speak_hindi_dialogue (speaker hindi_dialogue english_translation : String)
      (dramatic_level : Int)
  | explain_meaning (word_or_phrase detailed_explanation : String)
  | escalate_drama (new_intensity : Int)
  | get_argument_status
  | add_bollywood_element (element_type description : String)

/-- The registered name of each bollywood tool. -/
def bActionName : BParams → String
  | .set_argument_scene .. => "set_argument_scene"
  | .speak_hindi_dialogue .. => "speak_hindi_dialogue"
  | .explain_meaning .. => "explain_meaning"
  | .escalate_drama .. => "escalate_drama"
  | .get_argument_status => "get_argument_status"
  | .add_bollywood_element .. => "add_bollywood_element"

/-- Dispatch a bollywood tool invocation to its effect function. -/
def bApply : BParams → BollywoodArgumentContext → BollywoodArgumentContext × BRes
  | .set_argument_scene t n1 r1 n2 r2, c => set_argument_scene c t n1 r1 n2 r2
  | .speak_hindi_dialogue s h e l, c => speak_hindi_dialogue c s h e l
  | .explain_meaning w d, c => explain_meaning c w d
  | .escalate_drama n, c => escalate_drama c n
  | .get_argument_status, c => get_argument_status c
  | .add_bollywood_element t d, c => add_bollywood_element c t d

/-- `character_1_agent` as constructed (`handoffs` are appended afterwards). -/
def character_1_agent_base : Agent BollywoodArgumentContext :=
  { name := "Character 1"
    tools := ["speak_hindi_dialogue", "escalate_drama", "add_bollywood_element",
              "get_argument_status"]
    handoffs := [] }

/-- `character_2_agent` as constructed (`handoffs` are appended afterwards). -/
def character_2_agent_base : Agent BollywoodArgumentContext :=
  { name := "Character 2"
    tools := ["speak_hindi_dialogue", "escalate_drama", "add_bollywood_element",
              "get_argument_status"]
    handoffs := [] }

/-- `translator_agent` as constructed (`handoffs` are appended afterwards). -/
def translator_agent_base : Agent BollywoodArgumentContext :=
  { name := "Hindi Translator"
    tools := ["explain_meaning", "get_argument_status"]
    handoffs := [] }

/-- `argument_moderator`: constructed with hook-carrying handoff edges to the
two characters and the translator. -/
def argument_moderator : Agent BollywoodArgumentContext :=
  { name := "Argument Moderator"
    tools := ["set_argument_scene", "get_argument_status"]
    handoffs := [⟨"Character 1", some on_character_1_handoff⟩,
                 ⟨"Character 2", some on_character_2_handoff⟩,
                 ⟨"Hindi Translator", some on_translator_handoff⟩] }

/-- `character_1_agent` after the module-level `handoffs.append` lines. -/
def character_1_agent : Agent BollywoodArgumentContext :=
  { character_1_agent_base with
      handoffs := character_1_agent_base.handoffs ++
        [⟨"Character 2", none⟩, ⟨"Hindi Translator", none⟩] }

/-- `character_2_agent` after the module-level `handoffs.append` lines. -/
def character_2_agent : Agent BollywoodArgumentContext :=
  { character_2_agent_base with
      handoffs := character_2_agent_base.handoffs ++
        [⟨"Character 1", none⟩, ⟨"Hindi Translator", none⟩] }

/-- `translator_agent` after the module-level `handoffs.append` line. -/
def translator_agent : Agent BollywoodArgumentContext :=
  { translator_agent_base with
      handoffs := translator_agent_base.handoffs ++
        [⟨"Argument Moderator", none⟩] }

/-- The four agents assembled by `examples/bollywood/main.py`. -/
def bollywood_roster : List (Agent BollywoodArgumentContext) :=
  [character_1_agent, character_2_agent, translator_agent, argument_moderator]

/-- The agent names present in the bollywood roster. -/
def bollywood_names : List String := bollywood_roster.map Agent.name

/-! ### examples/debate/main.py -/

/-- The `team_scores` dict: it is created with exactly the four team keys and
only ever updated at those keys, so it is modelled as a four-field record.
Scores (`float` in the source) are modelled as rationals. -/
structure TeamScores where
  opening_government : ℚ := 0
  opening_opposition : ℚ := 0
  closing_government : ℚ := 0
  closing_opposition : ℚ := 0
  deriving DecidableEq

/-- Entries of `debate_history` (f-strings in the source), one constructor per
append site, carrying the interpolated data.  `begins_speaking` covers the
eight speaker activation hooks (speaker name plus the position title the
f-string inserts). -/
inductive DEvent where
  | motion_proposed (motion : String)
  | speakers_assigned (og1 og2 oo1 oo2 cg1 cg2 co1 co2 : String)
  | scored (speaker : String) (score : ℚ) (feedback : String)
  | next_speaker (role : String)
  | all_spoken
  | rankings_determined (rankings : List String)
  | rebuttal_started (speaker : String)
  | rebuttal_ended
  | begins_speaking (speaker : String) (position : String)
  | judge_evaluation
  deriving DecidableEq

/-- Result values returned by the debate tools, one constructor per `return`
statement, carrying the interpolated data. -/
inductive DRes where
  | motion_set (motion : String)
  | speakers_assigned_result (og1 og2 oo1 oo2 cg1 cg2 co1 co2 : String)
  | speech_scored (speaker : String) (score : ℚ) (feedback : String)
  | advanced_to (role : String)
  | all_completed
  | rankings (sorted_speakers : List (String × ℚ))
  | rebuttal_started_result (speaker : String)
  | rebuttal_ended_result
  | debate_status (motion current_speaker current_speaker_role : String)
      (speaker_number : Nat) (og1 og2 oo1 oo2 cg1 cg2 co1 co2 : String)
      (team_scores : TeamScores) (winner : Option String) (rebuttal_mode : Bool)
  deriving DecidableEq

/-- `DebateContext`, with the pydantic defaults.  `speaker_scores` is a Python
dict keyed by speaker name: modelled as an insertion-ordered association list
(see `dictSet`). -/
structure DebateContext where
  motion : String := ""
  opening_government_1 : String := ""
  opening_government_2 : String := ""
  opening_opposition_1 : String := ""
  opening_opposition_2 : String := ""
  closing_government_1 : String := ""
  closing_government_2 : String := ""
  closing_opposition_1 : String := ""
  closing_opposition_2 : String := ""
  current_speaker : String := ""
  current_speaker_role : String := ""
  speaker_order : List String :=
    ["opening_gov_1", "opening_opp_1", "opening_gov_2", "opening_opp_2",
     "closing_gov_1", "closing_opp_1", "closing_gov_2", "closing_opp_2"]
  current_speaker_index : Nat := 0
  speaker_scores : List (String × ℚ) := []
  team_scores : TeamScores := {}
  debate_history : List DEvent := []
  time_remaining : Nat := 300
  speaker_rankings : List String := []
  winner : Option String := none
  rebuttal_mode : Bool := false
  current_rebuttal_speaker : String := ""
  deriving DecidableEq

/-- Python dict assignment `d[k] = v` on an insertion-ordered association list:
update the existing binding in place, else append a new one. -/
def dictSet (l : List (String × ℚ)) (k : String) (v : ℚ) : List (String × ℚ) :=
  match l with
  | [] => [(k, v)]
  | (k1, v1) :: t => if k1 = k then (k, v) :: t else (k1, v1) :: dictSet t k v

/-- Python dict lookup `d.get(k)` on an insertion-ordered association list. -/
def dictFind (l : List (String × ℚ)) (k : String) : Option ℚ :=
  match l with
  | [] => none
  | (k1, v1) :: t => if k1 = k then some v1 else dictFind t k

/-- Tool `propose_motion`. -/
def propose_motion (c : DebateContext) (motion : String) : DebateContext × DRes :=
  ({ c with
      motion := motion
      debate_history := c.debate_history ++ [.motion_proposed motion] },
   .motion_set motion)

/-- Tool `assign_speakers`. -/
def assign_speakers (c : DebateContext)
    (opening_gov_1 opening_gov_2 opening_opp_1 opening_opp_2
     closing_gov_1 closing_gov_2 closing_opp_1 closing_opp_2 : String) :
    DebateContext × DRes :=
  ({ c with
      opening_government_1 := opening_gov_1
      opening_government_2 := opening_gov_2
      opening_opposition_1 := opening_opp_1
      opening_opposition_2 := opening_opp_2
      closing_government_1 := closing_gov_1
      closing_government_2 := closing_gov_2
      closing_opposition_1 := closing_opp_1
      closing_opposition_2 := closing_opp_2
      debate_history := c.debate_history ++
        [.speakers_assigned opening_gov_1 opening_gov_2 opening_opp_1
          opening_opp_2 closing_gov_1 closing_gov_2 closing_opp_1 closing_opp_2] },
   .speakers_assigned_result opening_gov_1 opening_gov_2 opening_opp_1
     opening_opp_2 closing_gov_1 closing_gov_2 closing_opp_1 closing_opp_2)

/-- Tool `score_speech`: records the score and feedback, then adds the score to
the team of the first membership test the speaker passes (`speaker in [a, b]`
chains); a speaker passing none of the four tests leaves `team_scores`
untouched. -/
def score_speech (c : DebateContext) (speaker : String) (score : ℚ)
    (feedback : String) : DebateContext × DRes :=
  let c1 : DebateContext :=
    { c with
        speaker_scores := dictSet c.speaker_scores speaker score
        debate_history := c.debate_history ++ [.scored speaker score feedback] }
  let c2 : DebateContext :=
    if speaker = c1.opening_government_1 || speaker = c1.opening_government_2 then
      { c1 with team_scores :=
          { c1.team_scores with opening_government :=
              c1.team_scores.opening_government + score } }
    else if speaker = c1.opening_opposition_1 || speaker = c1.opening_opposition_2 then
      { c1 with team_scores :=
          { c1.team_scores with opening_opposition :=
              c1.team_scores.opening_opposition + score } }
    else if speaker = c1.closing_government_1 || speaker = c1.closing_government_2 then
      { c1 with team_scores :=
          { c1.team_scores with closing_government :=
              c1.team_scores.closing_government + score } }
    else if speaker = c1.closing_opposition_1 || speaker = c1.closing_opposition_2 then
      { c1 with team_scores :=
          { c1.team_scores with closing_opposition :=
              c1.team_scores.closing_opposition + score } }
    else c1
  (c2, .speech_scored speaker score feedback)

/-- Tool `advance_speaker`: increments `current_speaker_index`, then either
advances to the role at that index or records that all speakers have spoken. -/
def advance_speaker (c : DebateContext) : DebateContext × DRes :=
  let c1 : DebateContext :=
    { c with current_speaker_index := c.current_speaker_index + 1 }
  if c1.current_speaker_index < c1.speaker_order.length then
    let next_role := c1.speaker_order.getD c1.current_speaker_index ""
    ({ c1 with
        current_speaker_role := next_role
        debate_history := c1.debate_history ++ [.next_speaker next_role] },
     .advanced_to next_role)
  else
    ({ c1 with debate_history := c1.debate_history ++ [.all_spoken] },
     .all_completed)

/-- Descending comparison on scored speakers, the `key=lambda x: x[1],
reverse=True` of `sorted` (Python's sort is stable, as is `mergeSort`). -/
def score_desc (a b : String × ℚ) : Bool := decide (b.2 ≤ a.2)

/-- Tool `rank_speakers`: sorts `speaker_scores` by descending score, appends
the sorted names to `speaker_rankings`, records the rankings in the history and
sets `winner` to the head of the whole (old ++ new) `speaker_rankings` list when
that list is non-empty. -/
def rank_speakers (c : DebateContext) : DebateContext × DRes :=
  let sorted_speakers := c.speaker_scores.mergeSort score_desc
  let new_rankings := c.speaker_rankings ++ sorted_speakers.map Prod.fst
  let c1 : DebateContext :=
    { c with
        speaker_rankings := new_rankings
        debate_history := c.debate_history ++ [.rankings_determined new_rankings] }
  let c2 : DebateContext :=
    match new_rankings with
    | [] => c1
    | w :: _ => { c1 with winner := some w }
  (c2, .rankings sorted_speakers)

/-- Tool `start_rebuttal`. -/
def start_rebuttal (c : DebateContext) (speaker : String) : DebateContext × DRes :=
  ({ c with
      rebuttal_mode := true
      current_rebuttal_speaker := speaker
      debate_history := c.debate_history ++ [.rebuttal_started speaker] },
   .rebuttal_started_result speaker)

/-- Tool `end_rebuttal`. -/
def end_rebuttal (c : DebateContext) : DebateContext × DRes :=
  ({ c with
      rebuttal_mode := false
      current_rebuttal_speaker := ""
      debate_history := c.debate_history ++ [.rebuttal_ended] },
   .rebuttal_ended_result)

/-- Tool `get_debate_status` (read-only status report; `speaker_number` is the
`current_speaker_index + 1` of the `n/8` display). -/
def get_debate_status (c : DebateContext) : DebateContext × DRes :=
  (c, .debate_status c.motion c.current_speaker c.current_speaker_role
    (c.current_speaker_index + 1) c.opening_government_1 c.opening_government_2
    c.opening_opposition_1 c.opening_opposition_2 c.closing_government_1
    c.closing_government_2 c.closing_opposition_1 c.closing_opposition_2
    c.team_scores c.winner c.rebuttal_mode)

/-- Hook `on_opening_gov_1_handoff`. -/
def on_opening_gov_1_handoff (c : DebateContext) : DebateContext :=
  { c with
      current_speaker := c.opening_government_1
      current_speaker_role := "opening_gov_1"
      debate_history := c.debate_history ++
        [.begins_speaking c.opening_government_1 "Opening Government 1"] }

/-- Hook `on_opening_opp_1_handoff`. -/
def on_opening_opp_1_handoff (c : DebateContext) : DebateContext :=
  { c with
      current_speaker := c.opening_opposition_1
      current_speaker_role := "opening_opp_1"
      debate_history := c.debate_history ++
        [.begins_speaking c.opening_opposition_1 "Opening Opposition 1"] }

/-- Hook `on_opening_gov_2_handoff`. -/
def on_opening_gov_2_handoff (c : DebateContext) : DebateContext :=
  { c with
      current_speaker := c.opening_government_2
      current_speaker_role := "opening_gov_2"
      debate_history := c.debate_history ++
        [.begins_speaking c.opening_government_2 "Opening Government 2"] }

/-- Hook `on_opening_opp_2_handoff`. -/
def on_opening_opp_2_handoff (c : DebateContext) : DebateContext :=
  { c with
      current_speaker := c.opening_opposition_2
      current_speaker_role := "opening_opp_2"
      debate_history := c.debate_history ++
        [.begins_speaking c.opening_opposition_2 "Opening Opposition 2"] }

/-- Hook `on_closing_gov_1_handoff`. -/
def on_closing_gov_1_handoff (c : DebateContext) : DebateContext :=
  { c with
      current_speaker := c.closing_government_1
      current_speaker_role := "closing_gov_1"
      debate_history := c.debate_history ++
        [.begins_speaking c.closing_government_1 "Closing Government 1"] }

/-- Hook `on_closing_opp_1_handoff`. -/
def on_closing_opp_1_handoff (c : DebateContext) : DebateContext :=
  { c with
      current_speaker := c.closing_opposition_1
      current_speaker_role := "closing_opp_1"
      debate_history := c.debate_history ++
        [.begins_speaking c.closing_opposition_1 "Closing Opposition 1"] }

/-- Hook `on_closing_gov_2_handoff`. -/
def on_closing_gov_2_handoff (c : DebateContext) : DebateContext :=
  { c with
      current_speaker := c.closing_government_2
      current_speaker_role := "closing_gov_2"
      debate_history := c.debate_history ++
        [.begins_speaking c.closing_government_2 "Closing Government 2"] }

/-- Hook `on_closing_opp_2_handoff`. -/
def on_closing_opp_2_handoff (c : DebateContext) : DebateContext :=
  { c with
      current_speaker := c.closing_opposition_2
      current_speaker_role := "closing_opp_2"
      debate_history := c.debate_history ++
        [.begins_speaking c.closing_opposition_2 "Closing Opposition 2"] }

/-- Hook `on_judge_handoff`. -/
def on_judge_handoff (c : DebateContext) : DebateContext :=
  { c with debate_history := c.debate_history ++ [.judge_evaluation] }

/-- Parameter records for the debate tools, one constructor per tool. -/
inductive DParams where
  | propose_motion (motion : String)
  | assign_speakers (og1 og2 oo1 oo2 cg1 cg2 co1 co2 : String)
  | score_speech (speaker : String) (score : ℚ) (feedback : String)
  | advance_speaker
  | rank_speakers
  | start_rebuttal (speaker : String)
  | end_rebuttal
  | get_debate_status

/-- The registered name of each debate tool. -/
def dActionName : DParams → String
  | .propose_motion .. => "propose_motion"
  | .assign_speakers .. => "assign_speakers"
  | .score_speech .. => "score_speech"
  | .advance_speaker => "advance_speaker"
  | .rank_speakers => "rank_speakers"
  | .start_rebuttal .. => "start_rebuttal"
  | .end_rebuttal => "end_rebuttal"
  | .get_debate_status => "get_debate_status"

/-- Dispatch a debate tool invocation to its effect function. -/
def dApply : DParams → DebateContext → DebateContext × DRes
  | .propose_motion m, c => propose_motion c m
  | .assign_speakers a b d e f g h i, c => assign_speakers c a b d e f g h i
  | .score_speech s q fb, c => score_speech c s q fb
  | .advance_speaker, c => advance_speaker c
  | .rank_speakers, c => rank_speakers c
  | .start_rebuttal s, c => start_rebuttal c s
  | .end_rebuttal, c => end_rebuttal c
  | .get_debate_status, c => get_debate_status c

/-! ### The drivers' trace tagging (the `main` loops)

Both `main` functions generate `conversation_id = uuid.uuid4().hex[:16]` once
before their read loop and pass it as `group_id` to every `trace(...)` block.
`Runner.run` is the opaque decision capability; only the sequence of `group_id`
arguments handed to `trace` is modelled, as a function of the id generated at
start and the user inputs the loop consumes.  A run ends when the input list is
exhausted. -/

/-- Python `str.lower()` (lowercase each character). -/
def str_lower (s : String) : String := ⟨s.data.map Char.toLower⟩

/-- Python `str.startswith(p)`. -/
def str_startsWith (s p : String) : Bool := s.data.take p.data.length == p.data

/-- Python `s[n:]` (drop the first `n` characters). -/
def str_drop (s : String) (n : Nat) : String := ⟨s.data.drop n⟩

/-- Python `str.strip()` (remove leading and trailing whitespace). -/
def str_strip (s : String) : String :=
  ⟨((s.data.dropWhile Char.isWhitespace).reverse.dropWhile
      Char.isWhitespace).reverse⟩

/-- The `group_id` arguments passed to `trace` by the bollywood `main` loop.
Each iteration runs two traced exchanges, then reads an input: `stop` breaks,
`status` re-loops, `explain <word>` (with a non-empty word) runs one more traced
translator turn and then consumes one extra "press Enter" input, anything else
re-loops. -/
def bollywood_trace_tags (conversation_id : String) :
    List String → List String
  | [] => []
  | u :: rest =>
    [conversation_id, conversation_id] ++
    (if str_lower u = "stop" then []
     else if str_lower u = "status" then bollywood_trace_tags conversation_id rest
     else if str_startsWith (str_lower u) "explain " then
       (if str_strip (str_drop u 8) = "" then
          bollywood_trace_tags conversation_id rest
        else conversation_id ::
          (match rest with
           | [] => []
           | _ :: rest2 => bollywood_trace_tags conversation_id rest2))
     else bollywood_trace_tags conversation_id rest)

/-- The `group_id` arguments passed to `trace` by the debate `main` loop.
`winner_set` abstracts the `context.winner` check at the top of each iteration
(the winner is produced by the opaque decision capability), keyed by the inputs
still unconsumed at that iteration: when it holds the loop breaks; a `status`
input re-loops without tracing; any other input runs one traced turn. -/
def debate_trace_tags (conversation_id : String)
    (winner_set : List String → Bool) : List String → List String
  | [] => []
  | u :: rest =>
    if winner_set (u :: rest) then []
    else if str_lower u = "status" then
      debate_trace_tags conversation_id winner_set rest
    else conversation_id :: debate_trace_tags conversation_id winner_set rest

/-- `opening_government_1_speaker` as constructed. -/
def opening_government_1_speaker_base : Agent DebateContext :=
  { name := "Opening Government Speaker 1", tools := ["get_debate_status"],
    handoffs := [] }

/-- `opening_opposition_1_speaker` as constructed. -/
def opening_opposition_1_speaker_base : Agent DebateContext :=
  { name := "Opening Opposition Speaker 1", tools := ["get_debate_status"],
    handoffs := [] }

/-- `opening_government_2_speaker` as constructed. -/
def opening_government_2_speaker_base : Agent DebateContext :=
  { name := "Opening Government Speaker 2", tools := ["get_debate_status"],
    handoffs := [] }

/-- `opening_opposition_2_speaker` as constructed. -/
def opening_opposition_2_speaker_base : Agent DebateContext :=
  { name := "Opening Opposition Speaker 2", tools := ["get_debate_status"],
    handoffs := [] }

/-- `closing_government_1_speaker` as constructed. -/
def closing_government_1_speaker_base : Agent DebateContext :=
  { name := "Closing Government Speaker 1", tools := ["get_debate_status"],
    handoffs := [] }

/-- `closing_opposition_1_speaker` as constructed. -/
def closing_opposition_1_speaker_base : Agent DebateContext :=
  { name := "Closing Opposition Speaker 1", tools := ["get_debate_status"],
    handoffs := [] }

/-- `closing_government_2_speaker` as constructed. -/
def closing_government_2_speaker_base : Agent DebateContext :=
  { name := "Closing Government Speaker 2", tools := ["get_debate_status"],
    handoffs := [] }

/-- `closing_opposition_2_speaker` as constructed. -/
def closing_opposition_2_speaker_base : Agent DebateContext :=
  { name := "Closing Opposition Speaker 2", tools := ["get_debate_status"],
    handoffs := [] }

/-- `judge` as constructed. -/
def judge_base : Agent DebateContext :=
  { name := "Debate Judge"
    tools := ["score_speech", "advance_speaker", "rank_speakers",
              "start_rebuttal", "end_rebuttal", "get_debate_status"]
    handoffs := [] }

/-- `debate_moderator`: constructed with hook-carrying handoff edges to the
eight speakers and the judge. -/
def debate_moderator : Agent DebateContext :=
  { name := "Debate Moderator"
    tools := ["propose_motion", "assign_speakers", "advance_speaker",
              "get_debate_status"]
    handoffs :=
      [⟨"Opening Government Speaker 1", some on_opening_gov_1_handoff⟩,
       ⟨"Opening Opposition Speaker 1", some on_opening_opp_1_handoff⟩,
       ⟨"Opening Government Speaker 2", some on_opening_gov_2_handoff⟩,
       ⟨"Opening Opposition Speaker 2", some on_opening_opp_2_handoff⟩,
       ⟨"Closing Government Speaker 1", some on_closing_gov_1_handoff⟩,
       ⟨"Closing Opposition Speaker 1", some on_closing_opp_1_handoff⟩,
       ⟨"Closing Government Speaker 2", some on_closing_gov_2_handoff⟩,
       ⟨"Closing Opposition Speaker 2", some on_closing_opp_2_handoff⟩,
       ⟨"Debate Judge", some on_judge_handoff⟩] }

/-- `opening_government_1_speaker` after the module-level append. -/
def opening_government_1_speaker : Agent DebateContext :=
  { opening_government_1_speaker_base with
      handoffs := opening_government_1_speaker_base.handoffs ++
        [⟨"Debate Judge", none⟩] }

/-- `opening_opposition_1_speaker` after the module-level append. -/
def opening_opposition_1_speaker : Agent DebateContext :=
  { opening_opposition_1_speaker_base with
      handoffs := opening_opposition_1_speaker_base.handoffs ++
        [⟨"Debate Judge", none⟩] }

/-- `opening_government_2_speaker` after the module-level append. -/
def opening_government_2_speaker : Agent DebateContext :=
  { opening_government_2_speaker_base with
      handoffs := opening_government_2_speaker_base.handoffs ++
        [⟨"Debate Judge", none⟩] }

/-- `opening_opposition_2_speaker` after the module-level append. -/
def opening_opposition_2_speaker : Agent DebateContext :=
  { opening_opposition_2_speaker_base with
      handoffs := opening_opposition_2_speaker_base.handoffs ++
        [⟨"Debate Judge", none⟩] }

/-- `closing_government_1_speaker` after the module-level append. -/
def closing_government_1_speaker : Agent DebateContext :=
  { closing_government_1_speaker_base with
      handoffs := closing_government_1_speaker_base.handoffs ++
        [⟨"Debate Judge", none⟩] }

/-- `closing_opposition_1_speaker` after the module-level append. -/
def closing_opposition_1_speaker : Agent DebateContext :=
  { closing_opposition_1_speaker_base with
      handoffs := closing_opposition_1_speaker_base.handoffs ++
        [⟨"Debate Judge", none⟩] }

/-- `closing_government_2_speaker` after the module-level append. -/
def closing_government_2_speaker : Agent DebateContext :=
  { closing_government_2_speaker_base with
      handoffs := closing_government_2_speaker_base.handoffs ++
        [⟨"Debate Judge", none⟩] }

/-- `closing_opposition_2_speaker` after the module-level append. -/
def closing_opposition_2_speaker : Agent DebateContext :=
  { closing_opposition_2_speaker_base with
      handoffs := closing_opposition_2_speaker_base.handoffs ++
        [⟨"Debate Judge", none⟩] }

/-- `judge` after the module-level append. -/
def judge : Agent DebateContext :=
  { judge_base with
      handoffs := judge_base.handoffs ++ [⟨"Debate Moderator", none⟩] }

/-- The ten agents assembled by `examples/debate/main.py`, in definition
order. -/
def debate_roster : List (Agent DebateContext) :=
  [opening_government_1_speaker, opening_opposition_1_speaker,
   opening_government_2_speaker, opening_opposition_2_speaker,
   closing_government_1_speaker, closing_opposition_1_speaker,
   closing_government_2_speaker, closing_opposition_2_speaker,
   judge, debate_moderator]

/-- The agent names present in the debate roster. -/
def debate_names : List String := debate_roster.map Agent.name

/-! ### Helper lemmas -/

/-- The history entry `rank_speakers` appends, whatever branch the final
`winner` update takes. -/
theorem rank_speakers_history (c : DebateContext) :
    (rank_speakers c).1.debate_history = c.debate_history ++
      [.rankings_determined (c.speaker_rankings ++
        (c.speaker_scores.mergeSort score_desc).map Prod.fst)] := by
  simp only [rank_speakers]
  cases h : c.speaker_rankings ++
      (c.speaker_scores.mergeSort score_desc).map Prod.fst <;>
    simp [h]

/-- Dict assignment followed by lookup of the same key returns the assigned
value. -/
theorem dictFind_dictSet (l : List (String × ℚ)) (k : String) (v : ℚ) :
    dictFind (dictSet l k v) k = some v := by
  induction l with
  | nil => simp [dictSet, dictFind]
  | cons p t ih =>
    obtain ⟨k1, v1⟩ := p
    by_cases h : k1 = k <;> simp [dictSet, dictFind, h, ih]

/-- The descending score comparison is transitive. -/
theorem score_desc_trans (a b d : String × ℚ) :
    score_desc a b = true → score_desc b d = true → score_desc a d = true := by
  simp only [score_desc, decide_eq_true_eq]
  exact fun h1 h2 => le_trans h2 h1

/-- The descending score comparison is total. -/
theorem score_desc_total (a b : String × ℚ) :
    (score_desc a b || score_desc b a) = true := by
  simp only [score_desc, Bool.or_eq_true, decide_eq_true_eq]
  exact le_total b.2 a.2

/-- Every tag the bollywood loop passes to `trace` is the conversation id
generated at run start. -/
theorem bollywood_tags_all_cid (conversation_id : String) :
    ∀ (inputs : List String) (t : String),
      t ∈ bollywood_trace_tags conversation_id inputs → t = conversation_id := by
  have key : ∀ (n : Nat) (inputs : List String), inputs.length ≤ n →
      ∀ t ∈ bollywood_trace_tags conversation_id inputs,
        t = conversation_id := by
    intro n
    induction n with
    | zero =>
      intro inputs hlen t ht
      rw [List.length_eq_zero.mp (Nat.le_zero.mp hlen)] at ht
      simp [bollywood_trace_tags] at ht
    | succ n ih =>
      intro inputs hlen t ht
      match inputs with
      | [] => simp [bollywood_trace_tags] at ht
      | [u] =>
        simp only [bollywood_trace_tags, List.cons_append, List.nil_append,
          List.mem_cons] at ht
        rcases ht with rfl | ht
        · rfl
        rcases ht with rfl | ht
        · rfl
        split_ifs at ht with h1 h2 h3 h4
        · simp at ht
        · exact ih [] (Nat.zero_le n) t ht
        · exact ih [] (Nat.zero_le n) t ht
        · rcases List.mem_cons.mp ht with rfl | ht2
          · rfl
          · simp at ht2
        · exact ih [] (Nat.zero_le n) t ht
      | u :: v :: rest2 =>
        have hlen1 : (v :: rest2).length ≤ n := by simpa using hlen
        have hlen2 : rest2.length ≤ n := le_trans (Nat.le_succ _) hlen1
        simp only [bollywood_trace_tags, List.cons_append, List.nil_append,
          List.mem_cons] at ht
        rcases ht with rfl | ht
        · rfl
        rcases ht with rfl | ht
        · rfl
        split_ifs at ht with h1 h2 h3 h4
        · simp at ht
        · exact ih _ hlen1 t ht
        · exact ih _ hlen1 t ht
        · rcases List.mem_cons.mp ht with rfl | ht2
          · rfl
          · exact ih rest2 hlen2 t ht2
        · exact ih _ hlen1 t ht
  exact fun inputs t ht => key inputs.length inputs (le_refl _) t ht

/-- Every tag the debate loop passes to `trace` is the conversation id
generated at run start. -/
theorem debate_tags_all_cid (conversation_id : String)
    (winner_set : List String → Bool) :
    ∀ (inputs : List String) (t : String),
      t ∈ debate_trace_tags conversation_id winner_set inputs →
      t = conversation_id := by
  intro inputs
  induction inputs with
  | nil => intro t ht; simp [debate_trace_tags] at ht
  | cons u rest ih =>
    intro t ht
    simp only [debate_trace_tags] at ht
    split_ifs at ht with h1 h2
    · simp at ht
    · exact ih t ht
    · rcases List.mem_cons.mp ht with rfl | ht2
      · rfl
      · exact ih t ht2

/-! ### The claims -/

/-- C1: every action effect function (via the `bApply`/`dApply` dispatch over
all tools of both files) and every handoff activation hook extends the history
log (`argument_history` / `debate_history`) append-only: the new log is the old
log with a (possibly empty) suffix appended, so the old log is a prefix, no
existing entry is altered, and the length never decreases. -/
theorem C1_history_append_only :
    (∀ (p : BParams) (c : BollywoodArgumentContext),
      ∃ t, (bApply p c).1.argument_history = c.argument_history ++ t) ∧
    (∀ (p : DParams) (c : DebateContext),
      ∃ t, (dApply p c).1.debate_history = c.debate_history ++ t) ∧
    (∀ c, ∃ t, (on_character_1_handoff c).argument_history = c.argument_history ++ t) ∧
    (∀ c, ∃ t, (on_character_2_handoff c).argument_history = c.argument_history ++ t) ∧
    (∀ c, ∃ t, (on_translator_handoff c).argument_history = c.argument_history ++ t) ∧
    (∀ c, ∃ t, (on_opening_gov_1_handoff c).debate_history = c.debate_history ++ t) ∧
    (∀ c, ∃ t, (on_opening_opp_1_handoff c).debate_history = c.debate_history ++ t) ∧
    (∀ c, ∃ t, (on_opening_gov_2_handoff c).debate_history = c.debate_history ++ t) ∧
    (∀ c, ∃ t, (on_opening_opp_2_handoff c).debate_history = c.debate_history ++ t) ∧
    (∀ c, ∃ t, (on_closing_gov_1_handoff c).debate_history = c.debate_history ++ t) ∧
    (∀ c, ∃ t, (on_closing_opp_1_handoff c).debate_history = c.debate_history ++ t) ∧
    (∀ c, ∃ t, (on_closing_gov_2_handoff c).debate_history = c.debate_history ++ t) ∧
    (∀ c, ∃ t, (on_closing_opp_2_handoff c).debate_history = c.debate_history ++ t) ∧
    (∀ c, ∃ t, (on_judge_handoff c).debate_history = c.debate_history ++ t) := by
  refine ⟨?_, ?_, fun c => ⟨_, rfl⟩, fun c => ⟨_, rfl⟩, fun c => ⟨_, rfl⟩,
    fun c => ⟨_, rfl⟩, fun c => ⟨_, rfl⟩, fun c => ⟨_, rfl⟩, fun c => ⟨_, rfl⟩,
    fun c => ⟨_, rfl⟩, fun c => ⟨_, rfl⟩, fun c => ⟨_, rfl⟩, fun c => ⟨_, rfl⟩,
    fun c => ⟨_, rfl⟩⟩
  · intro p c
    cases p <;> first
      | exact ⟨_, rfl⟩
      | exact ⟨[], (List.append_nil _).symm⟩
  · intro p c
    cases p
    case rank_speakers => exact ⟨_, rank_speakers_history c⟩
    case score_speech s q fb =>
      refine ⟨[.scored s q fb], ?_⟩
      simp only [dApply, score_speech]
      split_ifs <;> rfl
    case advance_speaker =>
      simp only [dApply, advance_speaker]
      split_ifs <;> exact ⟨_, rfl⟩
    all_goals first
      | exact ⟨_, rfl⟩
      | exact ⟨[], (List.append_nil _).symm⟩

/-- C2 counterexample input: a context with the eight speaker positions
assigned to "A".."H"; the scored speaker "Z" is on no team. -/
def score_speech_cex : DebateContext :=
  { opening_government_1 := "A", opening_government_2 := "B"
    opening_opposition_1 := "C", opening_opposition_2 := "D"
    closing_government_1 := "E", closing_government_2 := "F"
    closing_opposition_1 := "G", closing_opposition_2 := "H" }

/-- C2 counterexample: scoring a speaker that belongs to no team leaves every
team score unchanged while returning the ordinary success result (no failure is
reported), refuting the claim that `score_speech` applied with any speaker name
updates the team score of the team containing that speaker. -/
theorem C2_unrostered_speaker_counterexample :
    (score_speech score_speech_cex "Z" 5 "solid").1.team_scores =
      score_speech_cex.team_scores ∧
    (score_speech score_speech_cex "Z" 5 "solid").2 =
      .speech_scored "Z" 5 "solid" ∧
    "Z" ∉ [score_speech_cex.opening_government_1,
           score_speech_cex.opening_government_2,
           score_speech_cex.opening_opposition_1,
           score_speech_cex.opening_opposition_2,
           score_speech_cex.closing_government_1,
           score_speech_cex.closing_government_2,
           score_speech_cex.closing_opposition_1,
           score_speech_cex.closing_opposition_2] :=
  ⟨by decide, rfl, by decide⟩

/-- C2 (amended): `score_speech` always terminates with a result value, records
the score in `speaker_scores` and appends exactly one history entry; the team
score of the first team containing the speaker is increased by the score, and
when the speaker is on no team the team scores are left unchanged (without any
failure report).  `advance_speaker` always increments the index and records its
outcome in the history. -/
theorem C2_effects_record_outcome (c : DebateContext) (speaker : String)
    (score : ℚ) (feedback : String) :
    (score_speech c speaker score feedback).1.debate_history =
      c.debate_history ++ [.scored speaker score feedback] ∧
    (score_speech c speaker score feedback).2 =
      .speech_scored speaker score feedback ∧
    dictFind (score_speech c speaker score feedback).1.speaker_scores speaker =
      some score ∧
    ((speaker = c.opening_government_1 ∨ speaker = c.opening_government_2) →
      (score_speech c speaker score feedback).1.team_scores =
        { c.team_scores with opening_government :=
            c.team_scores.opening_government + score }) ∧
    (¬(speaker = c.opening_government_1 ∨ speaker = c.opening_government_2) →
      (speaker = c.opening_opposition_1 ∨ speaker = c.opening_opposition_2) →
      (score_speech c speaker score feedback).1.team_scores =
        { c.team_scores with opening_opposition :=
            c.team_scores.opening_opposition + score }) ∧
    (¬(speaker = c.opening_government_1 ∨ speaker = c.opening_government_2) →
      ¬(speaker = c.opening_opposition_1 ∨ speaker = c.opening_opposition_2) →
      (speaker = c.closing_government_1 ∨ speaker = c.closing_government_2) →
      (score_speech c speaker score feedback).1.team_scores =
        { c.team_scores with closing_government :=
            c.team_scores.closing_government + score }) ∧
    (¬(speaker = c.opening_government_1 ∨ speaker = c.opening_government_2) →
      ¬(speaker = c.opening_opposition_1 ∨ speaker = c.opening_opposition_2) →
      ¬(speaker = c.closing_government_1 ∨ speaker = c.closing_government_2) →
      (speaker = c.closing_opposition_1 ∨ speaker = c.closing_opposition_2) →
      (score_speech c speaker score feedback).1.team_scores =
        { c.team_scores with closing_opposition :=
            c.team_scores.closing_opposition + score }) ∧
    (¬(speaker = c.opening_government_1 ∨ speaker = c.opening_government_2) →
      ¬(speaker = c.opening_opposition_1 ∨ speaker = c.opening_opposition_2) →
      ¬(speaker = c.closing_government_1 ∨ speaker = c.closing_government_2) →
      ¬(speaker = c.closing_opposition_1 ∨ speaker = c.closing_opposition_2) →
      (score_speech c speaker score feedback).1.team_scores = c.team_scores) ∧
    (∃ e, (advance_speaker c).1.debate_history = c.debate_history ++ [e]) ∧
    (advance_speaker c).1.current_speaker_index = c.current_speaker_index + 1 := by
  refine ⟨?_, rfl, ?_, ?_, ?_, ?_, ?_, ?_, ?_, ?_⟩
  · simp only [score_speech]; split_ifs <;> rfl
  · have h := dictFind_dictSet c.speaker_scores speaker score
    simp only [score_speech]; split_ifs <;> simpa using h
  · intro hyp
    simp only [score_speech]
    split_ifs with h1 h2 h3 h4 <;> simp_all
  · intro hyp1 hyp2
    simp only [score_speech]
    split_ifs with h1 h2 h3 h4 <;> simp_all
  · intro hyp1 hyp2 hyp3
    simp only [score_speech]
    split_ifs with h1 h2 h3 h4 <;> simp_all
  · intro hyp1 hyp2 hyp3 hyp4
    simp only [score_speech]
    split_ifs with h1 h2 h3 h4 <;> simp_all
  · intro hyp1 hyp2 hyp3 hyp4
    simp only [score_speech]
    split_ifs with h1 h2 h3 h4 <;> simp_all
  · simp only [advance_speaker]
    split_ifs <;> exact ⟨_, rfl⟩
  · simp only [advance_speaker]
    split_ifs <;> rfl

/-- C2 witness: scoring speaker "A" (Opening Government 1) adds the score to
the Opening Government team. -/
theorem C2_effects_record_outcome_witness :
    ("A" = score_speech_cex.opening_government_1 ∨
     "A" = score_speech_cex.opening_government_2) ∧
    (score_speech score_speech_cex "A" 5 "fb").1.team_scores =
      { score_speech_cex.team_scores with opening_government :=
          score_speech_cex.team_scores.opening_government + 5 } :=
  ⟨Or.inl rfl,
   (C2_effects_record_outcome score_speech_cex "A" 5 "fb").2.2.2.1 (Or.inl rfl)⟩

/-- C3: in both assembled rosters every agent's outbound handoff edges target
only agent names present in the same roster, and the edge relation is not
symmetric: the moderators have edges to the characters/speakers but the
characters/speakers have no edge back to the moderator. -/
theorem C3_roster_closed_edges :
    (bollywood_roster.all (fun a =>
        a.handoffs.all (fun e => bollywood_names.contains e.target)) = true) ∧
    (debate_roster.all (fun a =>
        a.handoffs.all (fun e => debate_names.contains e.target)) = true) ∧
    ((argument_moderator.handoffs.map Handoff.target).contains "Character 1" = true) ∧
    ((character_1_agent.handoffs.map Handoff.target).contains "Argument Moderator" = false) ∧
    ((character_2_agent.handoffs.map Handoff.target).contains "Argument Moderator" = false) ∧
    ((debate_moderator.handoffs.map Handoff.target).contains "Opening Government Speaker 1" = true) ∧
    ((opening_government_1_speaker.handoffs.map Handoff.target).contains "Debate Moderator" = false) :=
  ⟨rfl, rfl, rfl, rfl, rfl, rfl, rfl⟩

/-- C4: every hook-carrying handoff edge targeting a character/speaker agent is
on the moderator in question, and its hook sets `current_speaker` (and, in the
debate, `current_speaker_role`) to the configured name of the handoff target
and appends exactly one history entry, mutating the context before the target
agent's first turn. -/
theorem C4_hooks_seed_context :
    ((⟨"Character 1", some on_character_1_handoff⟩ :
        Handoff BollywoodArgumentContext) ∈ argument_moderator.handoffs ∧
      ∀ c, (on_character_1_handoff c).current_speaker = c.character_1_name ∧
        (on_character_1_handoff c).argument_history =
          c.argument_history ++ [.speaker_change c.character_1_name]) ∧
    ((⟨"Character 2", some on_character_2_handoff⟩ :
        Handoff BollywoodArgumentContext) ∈ argument_moderator.handoffs ∧
      ∀ c, (on_character_2_handoff c).current_speaker = c.character_2_name ∧
        (on_character_2_handoff c).argument_history =
          c.argument_history ++ [.speaker_change c.character_2_name]) ∧
    ((⟨"Opening Government Speaker 1", some on_opening_gov_1_handoff⟩ :
        Handoff DebateContext) ∈ debate_moderator.handoffs ∧
      ∀ c, (on_opening_gov_1_handoff c).current_speaker = c.opening_government_1 ∧
        (on_opening_gov_1_handoff c).current_speaker_role = "opening_gov_1" ∧
        (on_opening_gov_1_handoff c).debate_history = c.debate_history ++
          [.begins_speaking c.opening_government_1 "Opening Government 1"]) ∧
    ((⟨"Opening Opposition Speaker 1", some on_opening_opp_1_handoff⟩ :
        Handoff DebateContext) ∈ debate_moderator.handoffs ∧
      ∀ c, (on_opening_opp_1_handoff c).current_speaker = c.opening_opposition_1 ∧
        (on_opening_opp_1_handoff c).current_speaker_role = "opening_opp_1" ∧
        (on_opening_opp_1_handoff c).debate_history = c.debate_history ++
          [.begins_speaking c.opening_opposition_1 "Opening Opposition 1"]) ∧
    ((⟨"Opening Government Speaker 2", some on_opening_gov_2_handoff⟩ :
        Handoff DebateContext) ∈ debate_moderator.handoffs ∧
      ∀ c, (on_opening_gov_2_handoff c).current_speaker = c.opening_government_2 ∧
        (on_opening_gov_2_handoff c).current_speaker_role = "opening_gov_2" ∧
        (on_opening_gov_2_handoff c).debate_history = c.debate_history ++
          [.begins_speaking c.opening_government_2 "Opening Government 2"]) ∧
    ((⟨"Opening Opposition Speaker 2", some on_opening_opp_2_handoff⟩ :
        Handoff DebateContext) ∈ debate_moderator.handoffs ∧
      ∀ c, (on_opening_opp_2_handoff c).current_speaker = c.opening_opposition_2 ∧
        (on_opening_opp_2_handoff c).current_speaker_role = "opening_opp_2" ∧
        (on_opening_opp_2_handoff c).debate_history = c.debate_history ++
          [.begins_speaking c.opening_opposition_2 "Opening Opposition 2"]) ∧
    ((⟨"Closing Government Speaker 1", some on_closing_gov_1_handoff⟩ :
        Handoff DebateContext) ∈ debate_moderator.handoffs ∧
      ∀ c, (on_closing_gov_1_handoff c).current_speaker = c.closing_government_1 ∧
        (on_closing_gov_1_handoff c).current_speaker_role = "closing_gov_1" ∧
        (on_closing_gov_1_handoff c).debate_history = c.debate_history ++
          [.begins_speaking c.closing_government_1 "Closing Government 1"]) ∧
    ((⟨"Closing Opposition Speaker 1", some on_closing_opp_1_handoff⟩ :
        Handoff DebateContext) ∈ debate_moderator.handoffs ∧
      ∀ c, (on_closing_opp_1_handoff c).current_speaker = c.closing_opposition_1 ∧
        (on_closing_opp_1_handoff c).current_speaker_role = "closing_opp_1" ∧
        (on_closing_opp_1_handoff c).debate_history = c.debate_history ++
          [.begins_speaking c.closing_opposition_1 "Closing Opposition 1"]) ∧
    ((⟨"Closing Government Speaker 2", some on_closing_gov_2_handoff⟩ :
        Handoff DebateContext) ∈ debate_moderator.handoffs ∧
      ∀ c, (on_closing_gov_2_handoff c).current_speaker = c.closing_government_2 ∧
        (on_closing_gov_2_handoff c).current_speaker_role = "closing_gov_2" ∧
        (on_closing_gov_2_handoff c).debate_history = c.debate_history ++
          [.begins_speaking c.closing_government_2 "Closing Government 2"]) ∧
    ((⟨"Closing Opposition Speaker 2", some on_closing_opp_2_handoff⟩ :
        Handoff DebateContext) ∈ debate_moderator.handoffs ∧
      ∀ c, (on_closing_opp_2_handoff c).current_speaker = c.closing_opposition_2 ∧
        (on_closing_opp_2_handoff c).current_speaker_role = "closing_opp_2" ∧
        (on_closing_opp_2_handoff c).debate_history = c.debate_history ++
          [.begins_speaking c.closing_opposition_2 "Closing Opposition 2"]) :=
  ⟨⟨by simp [argument_moderator], fun c => ⟨rfl, rfl⟩⟩,
   ⟨by simp [argument_moderator], fun c => ⟨rfl, rfl⟩⟩,
   ⟨by simp [debate_moderator], fun c => ⟨rfl, rfl, rfl⟩⟩,
   ⟨by simp [debate_moderator], fun c => ⟨rfl, rfl, rfl⟩⟩,
   ⟨by simp [debate_moderator], fun c => ⟨rfl, rfl, rfl⟩⟩,
   ⟨by simp [debate_moderator], fun c => ⟨rfl, rfl, rfl⟩⟩,
   ⟨by simp [debate_moderator], fun c => ⟨rfl, rfl, rfl⟩⟩,
   ⟨by simp [debate_moderator], fun c => ⟨rfl, rfl, rfl⟩⟩,
   ⟨by simp [debate_moderator], fun c => ⟨rfl, rfl, rfl⟩⟩,
   ⟨by simp [debate_moderator], fun c => ⟨rfl, rfl, rfl⟩⟩⟩

/-- C5: the apply phase is deterministic: every effect function (via the
dispatches over all tools) and every activation hook attached to any edge of
either roster yields equal outputs on equal inputs; the effects and hooks are
pure functions of the context and parameters. -/
theorem C5_apply_phase_deterministic :
    (∀ (p q : BParams) (c d : BollywoodArgumentContext),
      p = q → c = d → bApply p c = bApply q d) ∧
    (∀ (p q : DParams) (c d : DebateContext),
      p = q → c = d → dApply p c = dApply q d) ∧
    (∀ a, a ∈ bollywood_roster → ∀ e, e ∈ a.handoffs →
      ∀ f, e.on_handoff = some f →
      ∀ (c d : BollywoodArgumentContext), c = d → f c = f d) ∧
    (∀ a, a ∈ debate_roster → ∀ e, e ∈ a.handoffs →
      ∀ f, e.on_handoff = some f →
      ∀ (c d : DebateContext), c = d → f c = f d) :=
  ⟨fun _ _ _ _ hp hc => hp ▸ hc ▸ rfl,
   fun _ _ _ _ hp hc => hp ▸ hc ▸ rfl,
   fun _ _ _ _ _ _ _ _ hc => hc ▸ rfl,
   fun _ _ _ _ _ _ _ _ hc => hc ▸ rfl⟩

/-- C5 witness: concrete equal invocations of a tool and of hooks on both
rosters. -/
theorem C5_apply_phase_deterministic_witness :
    bApply (.escalate_drama 7) {} = bApply (.escalate_drama 7) {} ∧
    dApply (.propose_motion "m") {} = dApply (.propose_motion "m") {} ∧
    on_character_1_handoff {} = on_character_1_handoff {} ∧
    on_judge_handoff {} = on_judge_handoff {} :=
  ⟨C5_apply_phase_deterministic.1 _ _ _ _ rfl rfl,
   C5_apply_phase_deterministic.2.1 _ _ _ _ rfl rfl,
   C5_apply_phase_deterministic.2.2.1 argument_moderator (by simp [bollywood_roster])
     ⟨"Character 1", some on_character_1_handoff⟩ (by simp [argument_moderator])
     on_character_1_handoff rfl {} {} rfl,
   C5_apply_phase_deterministic.2.2.2 debate_moderator (by simp [debate_roster])
     ⟨"Debate Judge", some on_judge_handoff⟩ (by simp [debate_moderator])
     on_judge_handoff rfl {} {} rfl⟩

/-- C6: invoking an action whose name is not in the invoking agent's capability
set fails with `UnknownActionError`, returning no new context and no new
transcript entries; in particular the translator (granted only `explain_meaning`
and `get_argument_status`) cannot invoke `speak_hindi_dialogue` even though the
character agents are granted it, and the debate moderator cannot invoke
`score_speech` even though the judge is granted it. -/
theorem C6_unknown_action_rejected :
    (∀ {Ctx P R : Type} (apply_effect : P → Ctx → Ctx × R)
      (action_name : P → String) (a : Agent Ctx) (p : P) (c : Ctx)
      (tr : List (TranscriptEntry P R)),
      action_name p ∉ a.tools →
      invoke apply_effect action_name a p c tr = .error .UnknownActionError) ∧
    "speak_hindi_dialogue" ∉ translator_agent.tools ∧
    "speak_hindi_dialogue" ∈ character_1_agent.tools ∧
    (∀ (s h e : String) (l : Int) (c : BollywoodArgumentContext)
      (tr : List (TranscriptEntry BParams BRes)),
      invoke bApply bActionName translator_agent
        (.speak_hindi_dialogue s h e l) c tr = .error .UnknownActionError) ∧
    "score_speech" ∉ debate_moderator.tools ∧
    "score_speech" ∈ judge.tools ∧
    (∀ (s : String) (q : ℚ) (fb : String) (c : DebateContext)
      (tr : List (TranscriptEntry DParams DRes)),
      invoke dApply dActionName debate_moderator
        (.score_speech s q fb) c tr = .error .UnknownActionError) := by
  refine ⟨?_, by decide, by decide, ?_, by decide, by decide, ?_⟩
  · intro Ctx P R ap an a p c tr h
    simp [invoke, h]
  · intro s h e l c tr; rfl
  · intro s q fb c tr; rfl

/-- C6 witness: the translator invoking `speak_hindi_dialogue` on the default
context with an empty transcript is rejected. -/
theorem C6_unknown_action_rejected_witness :
    invoke bApply bActionName translator_agent
      (.speak_hindi_dialogue "s" "h" "e" 1) {} [] = .error .UnknownActionError :=
  C6_unknown_action_rejected.1 bApply bActionName translator_agent
    (.speak_hindi_dialogue "s" "h" "e" 1) {} [] (by decide)

/-- C7: within one run of either `main`, every `group_id` passed to `trace` is
the single conversation id generated at run start, for every sequence of user
inputs (and, in the debate, every behaviour of the winner check). -/
theorem C7_single_correlation_id :
    (∀ (conversation_id : String) (inputs : List String) (t : String),
      t ∈ bollywood_trace_tags conversation_id inputs →
      t = conversation_id) ∧
    (∀ (conversation_id : String) (winner_set : List String → Bool)
      (inputs : List String) (t : String),
      t ∈ debate_trace_tags conversation_id winner_set inputs →
      t = conversation_id) :=
  ⟨fun cid => bollywood_tags_all_cid cid,
   fun cid ws => debate_tags_all_cid cid ws⟩

/-- C7 witness: concrete runs of both loops, with a tag drawn from each. -/
theorem C7_single_correlation_id_witness :
    "gid1" ∈ bollywood_trace_tags "gid1" ["stop"] ∧ "gid1" = "gid1" ∧
    "gid2" ∈ debate_trace_tags "gid2" (fun _ => false) ["hello"] ∧
    "gid2" = "gid2" := by
  have m1 : "gid1" ∈ bollywood_trace_tags "gid1" ["stop"] := by decide
  have m2 : "gid2" ∈ debate_trace_tags "gid2" (fun _ => false) ["hello"] := by
    decide
  exact ⟨m1, C7_single_correlation_id.1 "gid1" ["stop"] "gid1" m1,
    m2, C7_single_correlation_id.2 "gid2" (fun _ => false) ["hello"] "gid2" m2⟩

/-- C8 (amended): when `speaker_rankings` starts empty (as in any run that
ranks once) and `speaker_scores` is non-empty, `rank_speakers` appends exactly
`len(speaker_scores)` names in non-increasing score order, and `winner` holds
the head of the descending sort, whose score is maximal among
`speaker_scores`. -/
theorem C8_rank_speakers_winner_maximal (c : DebateContext)
    (h0 : c.speaker_rankings = []) (h1 : c.speaker_scores ≠ []) :
    (rank_speakers c).1.speaker_rankings =
      (c.speaker_scores.mergeSort score_desc).map Prod.fst ∧
    (rank_speakers c).1.speaker_rankings.length = c.speaker_scores.length ∧
    List.Pairwise (fun a b : String × ℚ => b.2 ≤ a.2)
      (c.speaker_scores.mergeSort score_desc) ∧
    ∃ w : String × ℚ,
      (c.speaker_scores.mergeSort score_desc).head? = some w ∧
      (rank_speakers c).1.winner = some w.1 ∧
      w ∈ c.speaker_scores ∧
      ∀ p ∈ c.speaker_scores, p.2 ≤ w.2 := by
  have hperm := List.mergeSort_perm c.speaker_scores score_desc
  have hsorted := List.sorted_mergeSort score_desc_trans score_desc_total
    c.speaker_scores
  have hsorted2 : List.Pairwise (fun a b : String × ℚ => b.2 ≤ a.2)
      (c.speaker_scores.mergeSort score_desc) := by
    refine hsorted.imp ?_
    simp only [score_desc, decide_eq_true_eq]
    exact fun h => h
  obtain ⟨w, ws, hws⟩ : ∃ w ws,
      c.speaker_scores.mergeSort score_desc = w :: ws := by
    cases h : c.speaker_scores.mergeSort score_desc with
    | nil => exact absurd (hperm.symm.trans (h ▸ List.Perm.refl _)).eq_nil h1
    | cons w ws => exact ⟨w, ws, rfl⟩
  have hlen : (w :: ws).length = c.speaker_scores.length := by
    rw [← hws]; exact hperm.length_eq
  refine ⟨by simp [rank_speakers, h0, hws], ?_, hsorted2, w, by simp [hws],
    ?_, ?_, ?_⟩
  · simp [rank_speakers, h0, hws, ← hlen]
  · simp [rank_speakers, h0, hws]
  · exact hperm.mem_iff.mp (hws ▸ List.mem_cons_self w ws)
  · intro p hp
    have hp2 : p ∈ w :: ws := hws ▸ hperm.mem_iff.mpr hp
    rcases List.mem_cons.mp hp2 with h | h
    · exact h ▸ le_refl _
    · exact (List.pairwise_cons.mp (hws ▸ hsorted2)).1 p h

/-- C8 counterexample input: one scored speaker "A", but a stale entry "B"
already present in `speaker_rankings`. -/
def rank_speakers_cex : DebateContext :=
  { speaker_scores := [("A", 1)], speaker_rankings := ["B"] }

/-- C8 counterexample: with a non-empty `speaker_scores` but a stale
`speaker_rankings`, `winner` is set to the pre-existing head "B", which is not
a scored speaker at all (the descending sort starts with "A"), refuting the
claim for arbitrary contexts. -/
theorem C8_stale_rankings_counterexample :
    (rank_speakers rank_speakers_cex).1.winner = some "B" ∧
    "B" ∉ rank_speakers_cex.speaker_scores.map Prod.fst ∧
    (rank_speakers_cex.speaker_scores.mergeSort score_desc).map Prod.fst =
      ["A"] := by
  have hs : rank_speakers_cex.speaker_scores.mergeSort score_desc =
      [("A", 1)] :=
    List.perm_singleton.mp (List.mergeSort_perm _ _)
  refine ⟨?_, by decide, by rw [hs]; rfl⟩
  simp [rank_speakers, rank_speakers_cex, hs]

/-- C8 witness: a context with empty rankings and one scored speaker. -/
theorem C8_rank_speakers_winner_maximal_witness :
    ({ speaker_scores := [("A", 1)] } : DebateContext).speaker_rankings = [] ∧
    ({ speaker_scores := [("A", 1)] } : DebateContext).speaker_scores ≠ [] ∧
    (rank_speakers { speaker_scores := [("A", 1)] }).1.speaker_rankings.length =
      ({ speaker_scores := [("A", 1)] } : DebateContext).speaker_scores.length :=
  ⟨rfl, by simp,
   (C8_rank_speakers_winner_maximal { speaker_scores := [("A", 1)] } rfl
     (by simp)).2.1⟩

/-- C9: `start_rebuttal` then `end_rebuttal` yields `rebuttal_mode = false` and
`current_rebuttal_speaker = ""`; these equal the original fields whenever the
context started at the defaults, and `end_rebuttal` alone resets both fields
from any context. -/
theorem C9_rebuttal_reset (c : DebateContext) (speaker : String) :
    ((end_rebuttal (start_rebuttal c speaker).1).1.rebuttal_mode = false ∧
     (end_rebuttal (start_rebuttal c speaker).1).1.current_rebuttal_speaker = "") ∧
    (c.rebuttal_mode = false → c.current_rebuttal_speaker = "" →
      (end_rebuttal (start_rebuttal c speaker).1).1.rebuttal_mode = c.rebuttal_mode ∧
      (end_rebuttal (start_rebuttal c speaker).1).1.current_rebuttal_speaker =
        c.current_rebuttal_speaker) ∧
    (∀ d : DebateContext, (end_rebuttal d).1.rebuttal_mode = false ∧
      (end_rebuttal d).1.current_rebuttal_speaker = "") :=
  ⟨⟨rfl, rfl⟩,
   fun h1 h2 => ⟨h1 ▸ rfl, h2 ▸ rfl⟩,
   fun _ => ⟨rfl, rfl⟩⟩

/-- C9 witness: starting from the default context the round-trip restores the
original two fields. -/
theorem C9_rebuttal_reset_witness :
    (end_rebuttal (start_rebuttal {} "S").1).1.rebuttal_mode =
      ({} : DebateContext).rebuttal_mode ∧
    (end_rebuttal (start_rebuttal {} "S").1).1.current_rebuttal_speaker =
      ({} : DebateContext).current_rebuttal_speaker :=
  (C9_rebuttal_reset {} "S").2.1 rfl rfl

/-- C10: `escalate_drama` changes only `dramatic_intensity` (set to the new
intensity) and `argument_history` (one appended `drama_escalation` entry);
every other field of the context is unchanged. -/
theorem C10_escalate_drama_frame (c : BollywoodArgumentContext)
    (new_intensity : Int) :
    (escalate_drama c new_intensity).1.dramatic_intensity = new_intensity ∧
    (escalate_drama c new_intensity).1.argument_history =
      c.argument_history ++ [.drama_escalation new_intensity] ∧
    (escalate_drama c new_intensity).1.argument_topic = c.argument_topic ∧
    (escalate_drama c new_intensity).1.character_1_name = c.character_1_name ∧
    (escalate_drama c new_intensity).1.character_2_name = c.character_2_name ∧
    (escalate_drama c new_intensity).1.character_1_role = c.character_1_role ∧
    (escalate_drama c new_intensity).1.character_2_role = c.character_2_role ∧
    (escalate_drama c new_intensity).1.current_speaker = c.current_speaker ∧
    (escalate_drama c new_intensity).1.current_round = c.current_round ∧
    (escalate_drama c new_intensity).1.user_questions = c.user_questions ∧
    (escalate_drama c new_intensity).1.translations_given = c.translations_given :=
  ⟨rfl, rfl, rfl, rfl, rfl, rfl, rfl, rfl, rfl, rfl, rfl⟩
